import Mathlib

/-!
Shallow embedding of `src/spatialdata_io/readers/macsima.py` (the MACSima
reader of this repository) and proofs about it.

Modelling conventions:
* Python floats carrying physical pixel sizes become `ℚ`.
* Fallible Python code (raise / assert / IndexError / KeyError) becomes
  `Except PyError`;  each `PyError` constructor corresponds to exactly one
  raise site of the source, as noted next to it.
* `ome_types` / `bioio` objects are modelled as first-order structures
  holding exactly the fields the reader touches.  Python dicts become
  association lists, `None` becomes `Option.none`, and `getattr`/`hasattr`
  with a `None` default becomes an `Option` field.
* Python `sorted` (a stable sort with a precomputed key) is modelled by
  key decoration followed by `List.insertionSort` on the keys: a stable
  sort's output is uniquely determined by the keys and the input order, so
  any stable sort is an exact model.
-/

namespace Macsima

deriving instance DecidableEq for Except

/-- Modelled from the spec: the key constants `MacsimaKeys` come from
`spatialdata_io._constants._constants`, a module of this repository that is
not under `src/`.  Only the identity of the keys matters to the reader (the
spec describes them as the cycle key, the scan-type key, and a current and a
deprecated ROI key); representative distinct string values are used. -/
def MacsimaKeys.CYCLE : String := "Cycle"

/-- Modelled from the spec: the scan-type structured-annotation key. -/
def MacsimaKeys.SCANTYPE : String := "ScanType"

/-- Modelled from the spec: the current ROI-id structured-annotation key. -/
def MacsimaKeys.ROI_ID : String := "ROI ID"

/-- Modelled from the spec: the deprecated ROI-id structured-annotation key. -/
def MacsimaKeys.ROI_ID_deprecated : String := "ROI"

/-- One raise site of the source per constructor. -/
inductive PyError where
  /-- line 60: `ValueError` when glob finds no files. -/
  | noFilesError
  /-- Python `IndexError` from indexing `[0]` into an empty list
      (lines 63 and 92, `experiments[0]` / `images[0]`). -/
  | indexError
  /-- Python `KeyError` from `item.value[metadata_key]` on a dict missing
      the key (line 119). -/
  | keyError
  /-- line 122: assert that all annotation values for one key are equal. -/
  | annotationsNotEqual
  /-- line 129: assert that the cycle annotation is present. -/
  | cycleNotFound
  /-- line 134: `AttributeError` when the channel-names attribute is absent. -/
  | channelAttrNotFound
  /-- line 135: assert that there is exactly one channel name. -/
  | ambiguousChannel
  /-- line 138: `ValueError` when the single channel name is empty. -/
  | channelNotSpecified
  /-- line 143: assert that there is exactly one screen. -/
  | screensNotSingleton
  /-- line 147: assert that there is exactly one reagent. -/
  | reagentsNotSingleton
  /-- line 69: assert that all extracted ROI ids equal the first one. -/
  | roiMismatch
  /-- line 79: `AttributeError` from `.group()` on `None` when
      `re.match(r'^\d+', name)` finds no leading digits. -/
  | sortKeyNoMatch
  /-- line 83: `ValueError` ("not enough values to unpack") from
      `zip(*[...])` when the channel-subset filter retains nothing. -/
  | unpackEmpty
  /-- line 89: `ValueError` reporting an empty channel list after
      subsetting. -/
  | emptyChannelSubset
  /-- line 95: assert that every image's physical size equals the first's. -/
  | pixelSizeMismatch
  /-- line 158: `NotImplementedError` after logging that the x and y
      physical units differ. -/
  | unitsXYDiffer
  /-- line 161: `NotImplementedError` after logging that the x and y
      physical sizes differ. -/
  | sizesXYDiffer
  /-- line 169: `NotImplementedError` after logging an unrecognized
      physical unit. -/
  | unitNotRecognized
  /-- line 96: assert that the dimension order of `imgs[0]` is TCZYX. -/
  | dimsOrderMismatch
deriving DecidableEq

/-- One structured annotation: its `value` is a Python dict, modelled as an
association list from key to optional value (`none` in the range models the
dict holding Python `None` for that key; a key absent from the list models a
`KeyError` on access). -/
structure SAItem where
  value : List (String × Option String)
deriving DecidableEq

/-- `ome_types` reagent: the reader only touches `.name`. -/
structure Reagent where
  name : Option String
deriving DecidableEq

/-- `ome_types` screen: the reader only touches `.reagents` via `getattr`
with default `None`. -/
structure Screen where
  reagents : Option (List Reagent)
deriving DecidableEq

/-- `ome_types` experiment: the reader only touches `.description`. -/
structure Experiment where
  description : String
deriving DecidableEq

/-- The `ome_types` units enumeration, restricted to the two members the
reader distinguishes plus a catch-all for every other member. -/
inductive UnitsLength where
  | nanometer
  | micrometer
  | other (name : String)
deriving DecidableEq

/-- `ome_types` pixels metadata: the four fields read by
`_parse_physical_size`. -/
structure Pixels where
  physical_size_x : ℚ
  physical_size_y : ℚ
  physical_size_x_unit : UnitsLength
  physical_size_y_unit : UnitsLength
deriving DecidableEq

/-- One entry of `ome_metadata.images`; the reader only touches `.pixels`. -/
structure OmeImage where
  pixels : Pixels
deriving DecidableEq

/-- The OME metadata block of one file, with the fields the reader touches.
`screens := none` models the `hasattr` check at line 141 failing. -/
structure OmeMetadata where
  experiments : List Experiment
  structured_annotations : List SAItem
  screens : Option (List Screen)
  images : List OmeImage
deriving DecidableEq

/-- `img.dims`; the reader only touches `.order`. -/
structure Dims where
  order : String
deriving DecidableEq

/-- One `bioio.BioImage`.  `channel_names := none` models the attribute
being absent (the `getattr(img, ..., None)` at line 132).  `data` stands for
the lazy pixel array returned by `get_image_dask_data()`: the reader never
inspects pixel contents, so an opaque tag suffices. -/
structure BioImage where
  ome_metadata : OmeMetadata
  channel_names : Option (List String)
  dims : Dims
  data : Nat
deriving DecidableEq

/-- The fixed-order 5-element list `[cycle, scantype, channel_name, roi_id,
reagents]` returned by `_get_metadata` (line 150), as a structure.  The
source indexes it with `item[2]` (channel) and `item[3]` (ROI) and joins its
truthy members into the derived name. -/
structure Metadata where
  cycle : String
  scantype : Option String
  channel : String
  roi : Option String
  reagents : Option String
deriving DecidableEq

/-- Python truthiness of an optional string: `None` and `""` are falsy. -/
def pyTruthyStr : Option String → Bool
  | none => false
  | some s => !(s = "")

/-- Python truthiness of an optional string list: `None` and `[]` are falsy
(the `if c_subset:` at line 82 with default `c_subset = None`). -/
def pyTruthy : Option (List String) → Bool
  | none => false
  | some l => !l.isEmpty

/-- First-match lookup in an association list; models Python dict access
`d[key]` returning `none` when the key is absent (which raises `KeyError`
at the call site). -/
def lookupDict : List (String × Option String) → String → Option (Option String)
  | [], _ => none
  | (k, v) :: rest, key => if k = key then some v else lookupDict rest key

/-- The list comprehension at line 119:
`[item.value[key] for item in structured_annotations if item.value[key] is not None]`,
processed left to right; a dict missing the key raises `KeyError`. -/
def collectValues (key : String) : List SAItem → Except PyError (List String)
  | [] => .ok []
  | item :: rest =>
    match lookupDict item.value key with
    | none => .error .keyError
    | some none => collectValues key rest
    | some (some v) =>
      match collectValues key rest with
      | .error e => .error e
      | .ok vs => .ok (v :: vs)

/-- `_get_structured_annotations` (lines 117-123): collect all non-`None`
values for one key; return `none` when there are none, the common value when
they are all equal, and fail otherwise. -/
def _get_structured_annotations (img : BioImage) (key : String) :
    Except PyError (Option String) :=
  match collectValues key img.ome_metadata.structured_annotations with
  | .error e => .error e
  | .ok [] => .ok none
  | .ok (v :: vs) =>
    if (v :: vs).all (fun x => x = v) then .ok (some v)
    else .error .annotationsNotEqual

/-- Lines 132-138 of `_get_metadata`: read the channel-names attribute,
require exactly one entry, require it non-empty. -/
def _get_channel_name (img : BioImage) : Except PyError String :=
  match img.channel_names with
  | none => .error .channelAttrNotFound
  | some [c] => if c = "" then .error .channelNotSpecified else .ok c
  | some _ => .error .ambiguousChannel

/-- Lines 140-148 of `_get_metadata`: the nested screens-to-reagents walk.
When the reagent list is present but empty the Python variable keeps the
falsy value `[]`; since the result is only ever consumed through truthiness
filtering, that is modelled as `none`. -/
def _get_reagents (img : BioImage) : Except PyError (Option String) :=
  match img.ome_metadata.screens with
  | none => .ok none
  | some [s] =>
    match s.reagents with
    | none => .ok none
    | some [] => .ok none
    | some [r] => .ok r.name
    | some _ => .error .reagentsNotSingleton
  | some _ => .error .screensNotSingleton

/-- `_get_metadata` (lines 126-150).  The ROI id at line 149 is
`_gsa(img, ROI_ID) or _gsa(img, ROI_ID_deprecated)`: Python `or`
short-circuits, so the deprecated key is only consulted when the current
key's value is falsy (`None` or `""`). -/
def _get_metadata (img : BioImage) : Except PyError Metadata :=
  match _get_structured_annotations img MacsimaKeys.CYCLE with
  | .error e => .error e
  | .ok none => .error .cycleNotFound
  | .ok (some cycle) =>
    match _get_structured_annotations img MacsimaKeys.SCANTYPE with
    | .error e => .error e
    | .ok scantype =>
      match _get_channel_name img with
      | .error e => .error e
      | .ok channel_name =>
        match _get_reagents img with
        | .error e => .error e
        | .ok reagents =>
          match _get_structured_annotations img MacsimaKeys.ROI_ID with
          | .error e => .error e
          | .ok roi1 =>
            if pyTruthyStr roi1 then
              .ok ⟨cycle, scantype, channel_name, roi1, reagents⟩
            else
              match _get_structured_annotations img MacsimaKeys.ROI_ID_deprecated with
              | .error e => .error e
              | .ok roi2 => .ok ⟨cycle, scantype, channel_name, roi2, reagents⟩

/-- The list comprehension at line 65, `[_get_metadata(i) for i in imgs]`:
left-to-right, failing at the first failing image. -/
def getAllMetadata : List BioImage → Except PyError (List Metadata)
  | [] => .ok []
  | img :: rest =>
    match _get_metadata img with
    | .error e => .error e
    | .ok m =>
      match getAllMetadata rest with
      | .error e => .error e
      | .ok ms => .ok (m :: ms)

/-- The metadata tuple in its source order (line 150). -/
def Metadata.parts (m : Metadata) : List (Option String) :=
  [some m.cycle, m.scantype, some m.channel, m.roi, m.reagents]

/-- `[part for part in name_parts if part]` (line 76): keep the truthy
parts, in order. -/
def truthyParts (l : List (Option String)) : List String :=
  l.filterMap (fun p =>
    match p with
    | none => none
    | some s => if s = "" then none else some s)

/-- The DerivedName of one image (line 76):
`"_".join([part for part in name_parts if part])`. -/
def derivedName (m : Metadata) : String :=
  String.intercalate "_" (truthyParts m.parts)

/-- The sort key of line 79: `int(re.match(r'^\d+', name).group())`, i.e.
the leading run of decimal digits read as a number, or `none` (an
`AttributeError` at the call site) when the name does not start with a
digit. -/
def leadingNat (s : String) : Option Nat :=
  match s.data.takeWhile (fun c => c.isDigit) with
  | [] => none
  | d :: ds => some ((d :: ds).foldl (fun n c => n * 10 + (c.toNat - 48)) 0)

/-- A decorated element of `zip(names, c_coords, imgs)` (line 79):
(name, channel, image). -/
abbrev Triple := String × String × BioImage

/-- A triple decorated with its precomputed sort key. -/
abbrev Keyed := Nat × Triple

/-- `zip(names, c_coords, imgs)` where `names` and `c_coords` are the maps
of `derivedName` and `.channel` over the metadata list (lines 66 and 76);
like Python `zip` it truncates to the shorter list. -/
def buildTriples : List Metadata → List BioImage → List Triple
  | m :: ms, i :: is => (derivedName m, m.channel, i) :: buildTriples ms is
  | _, _ => []

/-- Key precomputation of `sorted(..., key=...)`: Python evaluates the key
of every element (left to right) before comparing, so a name without a
leading digit fails here. -/
def attachKeys : List Triple → Except PyError (List Keyed)
  | [] => .ok []
  | t :: rest =>
    match leadingNat t.1 with
    | none => .error .sortKeyNoMatch
    | some k =>
      match attachKeys rest with
      | .error e => .error e
      | .ok ks => .ok ((k, t) :: ks)

/-- Comparison on decorated elements: by key only, as in
`key=lambda x: int(...)`. -/
def keyPairLe (a b : Keyed) : Prop := a.1 ≤ b.1

instance : DecidableRel keyPairLe := fun a b => Nat.decLe a.1 b.1

instance : IsTotal Keyed keyPairLe := ⟨fun a b => Nat.le_total a.1 b.1⟩

instance : IsTrans Keyed keyPairLe := ⟨fun _ _ _ h1 h2 => Nat.le_trans h1 h2⟩

/-- Line 79's `sorted`: stable sort of the decorated list by key, then
undecorate. -/
def pySortTriples (l : List Triple) : Except PyError (List Triple) :=
  match attachKeys l with
  | .error e => .error e
  | .ok keyed => .ok ((List.insertionSort keyPairLe keyed).map (fun p => p.2))

/-- Lines 82-86: when `c_subset` is truthy, keep only triples whose channel
is in it; re-unpacking an empty result with `zip(*[])` fails with a
`ValueError` before the dedicated emptiness check is reached. -/
def subsetApply (c_subset : Option (List String)) (l : List Triple) :
    Except PyError (List Triple) :=
  if pyTruthy c_subset then
    let f := l.filter (fun t => (c_subset.getD []).contains t.2.1)
    if f.isEmpty then .error .unpackEmpty else .ok f
  else .ok l

/-- `_parse_physical_size` (lines 153-170). -/
def _parse_physical_size (pixels : Pixels) : Except PyError ℚ :=
  if pixels.physical_size_x_unit ≠ pixels.physical_size_y_unit then
    .error .unitsXYDiffer
  else if pixels.physical_size_x ≠ pixels.physical_size_y then
    .error .sizesXYDiffer
  else if pixels.physical_size_x_unit = UnitsLength.nanometer then
    .ok (pixels.physical_size_x / 1000)
  else if pixels.physical_size_x_unit = UnitsLength.micrometer then
    .ok pixels.physical_size_x
  else .error .unitNotRecognized

/-- `_parse_physical_size(img.ome_metadata.images[0].pixels)` including the
`[0]` indexing (lines 92 and 95). -/
def imgPhysicalSize (img : BioImage) : Except PyError ℚ :=
  match img.ome_metadata.images with
  | [] => .error .indexError
  | i :: _ => _parse_physical_size i.pixels

/-- The loop at lines 94-95: every image's parsed physical size must equal
the first one's. -/
def checkPhysicalSizes (p0 : ℚ) : List BioImage → Except PyError Unit
  | [] => .ok ()
  | img :: rest =>
    match imgPhysicalSize img with
    | .error e => .error e
    | .ok p => if p = p0 then checkPhysicalSizes p0 rest else .error .pixelSizeMismatch

/-- `_clean_string` (lines 172-175): `re.sub` with a single-character class
replaces each character outside `[a-zA-Z0-9_]` by an underscore,
one-for-one. -/
def _clean_string (input_string : String) : String :=
  String.mk (input_string.data.map (fun c => if c.isAlphanum || c == '_' then c else '_'))

/-- The `Scale`/`Identity` transform attached at line 100. -/
inductive Transform where
  | identity
  | scale (factors : List ℚ) (axes : List String)
deriving DecidableEq

/-- The observable output of `macsima`: the single image entry of the
returned SpatialData.  `channelLabels` is the `c_coords=names` argument of
line 105, `stackedImgs` records which image supplied each channel plane of
the `da.stack` of line 98, in order. -/
structure SpatialDataOut where
  imageName : String
  channelLabels : List String
  stackedImgs : List BioImage
  coordinateSystem : String
  transform : Transform
deriving DecidableEq

/-- Lines 76-114: everything after metadata extraction and the ROI check.
`to_coordinate_system` and `image_name` are already resolved. -/
def macsimaStack (to_coordinate_system image_name : String)
    (metadata : List Metadata) (imgs : List BioImage)
    (c_subset : Option (List String)) (transformations : Bool) :
    Except PyError SpatialDataOut :=
  match pySortTriples (buildTriples metadata imgs) with
  | .error e => .error e
  | .ok sortedTriples =>
    match subsetApply c_subset sortedTriples with
    | .error e => .error e
    | .ok retained =>
      if retained.isEmpty then .error .emptyChannelSubset
      else
        match retained with
        | [] => .error .indexError
        | t0 :: _ =>
          match imgPhysicalSize t0.2.2 with
          | .error e => .error e
          | .ok pixels_to_microns =>
            match checkPhysicalSizes pixels_to_microns (retained.map (fun t => t.2.2)) with
            | .error e => .error e
            | .ok _ =>
              if t0.2.2.dims.order = "TCZYX" then
                .ok { imageName := _clean_string image_name
                      channelLabels := retained.map (fun t => t.1)
                      stackedImgs := retained.map (fun t => t.2.2)
                      coordinateSystem := to_coordinate_system
                      transform :=
                        if transformations then
                          Transform.scale [pixels_to_microns, pixels_to_microns] ["x", "y"]
                        else Transform.identity }
              else .error .dimsOrderMismatch

/-- Lines 66-74: the ROI consistency branch.  Only when the FIRST image's
extracted ROI id is non-`None` are the others compared against it, the
coordinate-system name suffixed, and the image name suffixed. -/
def macsimaAssemble (img0 : BioImage) (rest : List BioImage) (desc : String)
    (md0 : Metadata) (mdRest : List Metadata) (c_subset : Option (List String))
    (transformations : Bool) : Except PyError SpatialDataOut :=
  match md0.roi with
  | some roi_id =>
    if ((md0 :: mdRest).map (fun m => m.roi)).all (fun x => x = some roi_id) then
      macsimaStack ("global_" ++ roi_id) (desc ++ "_" ++ roi_id)
        (md0 :: mdRest) (img0 :: rest) c_subset transformations
    else .error .roiMismatch
  | none =>
    macsimaStack "global" desc (md0 :: mdRest) (img0 :: rest) c_subset transformations

/-- `macsima` (lines 25-114).  The input list stands for the images decoded
from the glob hits, in discovery order; an empty list is the
"no matching files" discovery failure.  `imgs[0].ome_metadata.experiments[0]`
is read (line 63) before any metadata extraction. -/
def macsima (imgs : List BioImage) (c_subset : Option (List String))
    (transformations : Bool) : Except PyError SpatialDataOut :=
  match imgs with
  | [] => .error .noFilesError
  | img0 :: rest =>
    match img0.ome_metadata.experiments with
    | [] => .error .indexError
    | exp0 :: _ =>
      match _get_metadata img0 with
      | .error e => .error e
      | .ok md0 =>
        match getAllMetadata rest with
        | .error e => .error e
        | .ok mdRest =>
          macsimaAssemble img0 rest exp0.description md0 mdRest c_subset transformations

/-- The membership test actually applied by the subset filter of lines
82-86, as one predicate: everything is kept when `c_subset` is falsy. -/
def retainKeep (c_subset : Option (List String)) (t : Triple) : Bool :=
  if pyTruthy c_subset then (c_subset.getD []).contains t.2.1 else true

/-- The DerivedName as claim C1 words it: the underscore-join of the
non-empty parts among cycle, scan type, channel name and reagent name (ROI
id excluded).  Written from the spec sentence, to be compared with
`derivedName`. -/
def claimDerivedNameNoRoi (m : Metadata) : String :=
  String.intercalate "_"
    (([m.cycle, m.scantype.getD "", m.channel, m.reagents.getD ""]).filter
      (fun s => !(s = "")))

/-- The DerivedName as the amended claim words it: the underscore-join of
the non-empty parts among cycle, scan type, channel name, ROI id and
reagent name, in that order. -/
def specDerivedName (m : Metadata) : String :=
  String.intercalate "_"
    (([m.cycle, m.scantype.getD "", m.channel, m.roi.getD "", m.reagents.getD ""]).filter
      (fun s => !(s = "")))

/-- Ascending order of the leading-digit-run keys of two channel labels:
both labels start with digits and the first key is at most the second. -/
def labelKeyLe (a b : String) : Prop :=
  ∃ ka kb, leadingNat a = some ka ∧ leadingNat b = some kb ∧ ka ≤ kb

/-- Placeholder output used to instantiate existential results in concrete
witnesses. -/
def defaultOut : SpatialDataOut :=
  { imageName := ""
    channelLabels := []
    stackedImgs := []
    coordinateSystem := ""
    transform := .identity }

/-- A structured-annotation dict holding all four keys the reader queries
(the MACSima files carry one annotation block with every key). -/
def mkSA (cycle scantype roi roiDep : Option String) : SAItem :=
  ⟨[(MacsimaKeys.CYCLE, cycle), (MacsimaKeys.SCANTYPE, scantype),
    (MacsimaKeys.ROI_ID, roi), (MacsimaKeys.ROI_ID_deprecated, roiDep)]⟩

/-- A well-formed single-channel MACSima image for concrete runs. -/
def mkImg (cycle : String) (scantype roi : Option String) (chan : String)
    (reag : Option String) (size : ℚ) (unit : UnitsLength) (dimOrder : String)
    (dataTag : Nat) : BioImage :=
  { ome_metadata :=
      { experiments := [⟨"MACSima experiment"⟩]
        structured_annotations := [mkSA (some cycle) scantype roi none]
        screens :=
          match reag with
          | none => none
          | some r => some [⟨some [⟨some r⟩]⟩]
        images := [⟨⟨size, size, unit, unit⟩⟩] }
    channel_names := some [chan]
    dims := ⟨dimOrder⟩
    data := dataTag }

/-- Concrete image with every metadata part present (cycle 1, scan type S,
channel DAPI, ROI 2, reagent R), 1 micrometer pixels. -/
def imgC1 : BioImage := mkImg "1" (some "S") (some "2") "DAPI" (some "R") 1 .micrometer "TCZYX" 0

def imgC2a : BioImage := mkImg "1" none none "DAPI" none 1 .micrometer "TCZYX" 1

def imgC2b : BioImage := mkImg "2" none (some "2") "CD3" none 1 .micrometer "TCZYX" 2

def imgC3 : BioImage := mkImg "1" none none "DAPI" none 1 .micrometer "TCZYX" 3

def imgC4a : BioImage := mkImg "3" none none "CD3" none 1 .micrometer "TCZYX" 4

def imgC4b : BioImage := mkImg "1" none none "CD4" none 1 .micrometer "TCZYX" 5

def imgC4c : BioImage := mkImg "2" none none "CD8" none 1 .micrometer "TCZYX" 6

/-- Pixel size 1 micrometer. -/
def imgC6a : BioImage := mkImg "1" none none "DAPI" none 1 .micrometer "TCZYX" 7

/-- Pixel size 2 micrometers: differs from `imgC6a`. -/
def imgC6b : BioImage := mkImg "2" none none "CD3" none 2 .micrometer "TCZYX" 8

def imgC7a : BioImage := mkImg "1" none none "DAPI" none 1 .micrometer "TCZYX" 9

/-- Dimension order is not TCZYX. -/
def imgC7b : BioImage := mkImg "2" none none "CD3" none 1 .micrometer "XYZCT" 10

def imgC8base : BioImage := mkImg "1" none none "X" none 1 .micrometer "TCZYX" 11

/-- `imgC8base` with the channel-names attribute replaced. -/
def imgC8 (cn : Option (List String)) : BioImage := { imgC8base with channel_names := cn }

/-- ROI id containing characters outside the sanitization class. -/
def imgC9 : BioImage := mkImg "1" none (some "ROI(2)") "DAPI" none 1 .micrometer "TCZYX" 12

def imgC10a : BioImage := mkImg "1" none none "DAPI" none 1 .micrometer "TCZYX" 13

/-- Same cycle number as `imgC10a`, different channel. -/
def imgC10b : BioImage := mkImg "1" none none "CD3" none 1 .micrometer "TCZYX" 14

def imgC10c : BioImage := mkImg "2" none none "CD8" none 1 .micrometer "TCZYX" 15

/-- First ROI id "1". -/
def imgC2c : BioImage := mkImg "1" none (some "1") "DAPI" none 1 .micrometer "TCZYX" 18

/-- Second ROI id "2", differing from `imgC2c`. -/
def imgC2d : BioImage := mkImg "2" none (some "2") "CD3" none 1 .micrometer "TCZYX" 19

/-- Cycle annotation "X": its derived name has no leading digit. -/
def imgC4bad : BioImage := mkImg "X" none none "DAPI" none 1 .micrometer "TCZYX" 16

def imgC6c : BioImage := mkImg "1" none none "DAPI" none 1 .micrometer "TCZYX" 20

def imgC6d : BioImage := mkImg "2" none none "CD3" none 1 .micrometer "TCZYX" 21

/-- Single image whose dimension order is not TCZYX. -/
def imgC7c : BioImage := mkImg "1" none none "DAPI" none 1 .micrometer "XYZCT" 17

/-! ## Helper lemmas -/

/-- Filtering an `orderedInsert` by an exact key value either prepends the
inserted element (when its key matches) or leaves the filtered list
unchanged: the inserted element always lands before the equal-keyed ones. -/
theorem filter_orderedInsert_key (k : Nat) (a : Keyed) (l : List Keyed) :
    (List.orderedInsert keyPairLe a l).filter (fun p => decide (p.1 = k))
      = if a.1 = k then a :: l.filter (fun p => decide (p.1 = k))
        else l.filter (fun p => decide (p.1 = k)) := by
  induction l with
  | nil =>
    by_cases h : a.1 = k <;> simp [List.orderedInsert, List.filter_cons, h]
  | cons b l ih =>
    by_cases hr : keyPairLe a b
    · rw [List.orderedInsert, if_pos hr]
      by_cases h : a.1 = k <;> simp [List.filter_cons, h]
    · rw [List.orderedInsert, if_neg hr]
      rw [List.filter_cons]
      by_cases hb : b.1 = k
      · have ha : ¬ a.1 = k := by
          intro ha
          exact hr (show a.1 ≤ b.1 by omega)
        simp [hb, ha, ih, List.filter_cons]
      · by_cases ha : a.1 = k <;> simp [hb, ha, ih, List.filter_cons]

/-- Stability of the modelled sort: the sublist of elements carrying any
fixed key value is exactly the same, in the same order, before and after
sorting. -/
theorem insertionSort_filter_key (k : Nat) (l : List Keyed) :
    (List.insertionSort keyPairLe l).filter (fun p => decide (p.1 = k))
      = l.filter (fun p => decide (p.1 = k)) := by
  induction l with
  | nil => rfl
  | cons a l ih =>
    rw [List.insertionSort, filter_orderedInsert_key, ih, List.filter_cons]
    by_cases h : a.1 = k <;> simp [h]

/-- Undecorating the key-decorated list recovers the original list. -/
theorem attachKeys_ok_map {l : List Triple} {ks : List Keyed}
    (h : attachKeys l = .ok ks) : ks.map (fun p => p.2) = l := by
  induction l generalizing ks with
  | nil =>
    simp only [attachKeys, Except.ok.injEq] at h
    subst h
    rfl
  | cons t rest ih =>
    rw [attachKeys] at h
    cases hk : leadingNat t.1 with
    | none => rw [hk] at h; exact absurd h (by simp)
    | some k =>
      rw [hk] at h
      cases hr : attachKeys rest with
      | error e => rw [hr] at h; exact absurd h (by simp)
      | ok ks' =>
        rw [hr] at h
        simp only [Except.ok.injEq] at h
        subst h
        simp [ih hr]

/-- Every decorated element carries the key computed from its name. -/
theorem attachKeys_mem_key {l : List Triple} {ks : List Keyed}
    (h : attachKeys l = .ok ks) : ∀ p ∈ ks, leadingNat p.2.1 = some p.1 := by
  induction l generalizing ks with
  | nil =>
    simp only [attachKeys, Except.ok.injEq] at h
    subst h
    intro p hp
    exact absurd hp (List.not_mem_nil p)
  | cons t rest ih =>
    rw [attachKeys] at h
    cases hk : leadingNat t.1 with
    | none => rw [hk] at h; exact absurd h (by simp)
    | some k =>
      rw [hk] at h
      cases hr : attachKeys rest with
      | error e => rw [hr] at h; exact absurd h (by simp)
      | ok ks' =>
        rw [hr] at h
        simp only [Except.ok.injEq] at h
        subst h
        intro p hp
        rcases List.mem_cons.mp hp with h1 | h2
        · subst h1; exact hk
        · exact ih hr p h2

/-- Key decoration fails (with the AttributeError of line 79) whenever any
name has no leading digit. -/
theorem attachKeys_error_of_none {l : List Triple}
    (h : ∃ t ∈ l, leadingNat t.1 = none) :
    attachKeys l = .error .sortKeyNoMatch := by
  induction l with
  | nil => simp at h
  | cons t rest ih =>
    rw [attachKeys]
    rcases h with ⟨u, hu, hnone⟩
    rcases List.mem_cons.mp hu with h1 | h2
    · subst h1
      rw [hnone]
    · cases hk : leadingNat t.1 with
      | none => rfl
      | some k => rw [ih ⟨u, h2, hnone⟩]

/-- Metadata extraction preserves the number of images. -/
theorem getAllMetadata_length {l : List BioImage} {ms : List Metadata}
    (h : getAllMetadata l = .ok ms) : ms.length = l.length := by
  induction l generalizing ms with
  | nil =>
    simp only [getAllMetadata, Except.ok.injEq] at h
    subst h
    rfl
  | cons img rest ih =>
    rw [getAllMetadata] at h
    cases hm : _get_metadata img with
    | error e => rw [hm] at h; exact absurd h (by simp)
    | ok m =>
      rw [hm] at h
      cases hr : getAllMetadata rest with
      | error e => rw [hr] at h; exact absurd h (by simp)
      | ok ms' =>
        rw [hr] at h
        simp only [Except.ok.injEq] at h
        subst h
        simp [ih hr]

/-- Every extracted metadata record comes from one of the input images. -/
theorem getAllMetadata_mem {l : List BioImage} {ms : List Metadata}
    (h : getAllMetadata l = .ok ms) :
    ∀ m ∈ ms, ∃ img ∈ l, _get_metadata img = .ok m := by
  induction l generalizing ms with
  | nil =>
    simp only [getAllMetadata, Except.ok.injEq] at h
    subst h
    intro m hm
    exact absurd hm (List.not_mem_nil m)
  | cons img rest ih =>
    rw [getAllMetadata] at h
    cases hm : _get_metadata img with
    | error e => rw [hm] at h; exact absurd h (by simp)
    | ok m =>
      rw [hm] at h
      cases hr : getAllMetadata rest with
      | error e => rw [hr] at h; exact absurd h (by simp)
      | ok ms' =>
        rw [hr] at h
        simp only [Except.ok.injEq] at h
        subst h
        intro m' hm'
        rcases List.mem_cons.mp hm' with h1 | h2
        · subst h1; exact ⟨img, List.mem_cons_self img rest, hm⟩
        · rcases ih hr m' h2 with ⟨i, hi, hgm⟩
          exact ⟨i, List.mem_cons_of_mem img hi, hgm⟩

/-- Every triple is the derived name, channel and image of one
metadata-image pair of the inputs. -/
theorem buildTriples_mem {mds : List Metadata} {imgs : List BioImage} :
    ∀ t ∈ buildTriples mds imgs,
      ∃ m ∈ mds, ∃ i ∈ imgs, t = (derivedName m, m.channel, i) := by
  induction mds generalizing imgs with
  | nil => intro t ht; cases imgs <;> simp [buildTriples] at ht
  | cons m ms ih =>
    intro t ht
    cases imgs with
    | nil => simp [buildTriples] at ht
    | cons i is =>
      rw [buildTriples] at ht
      rcases List.mem_cons.mp ht with h1 | h2
      · exact ⟨m, List.mem_cons_self m ms, i, List.mem_cons_self i is, h1⟩
      · rcases ih t h2 with ⟨m', hm', i', hi', he⟩
        exact ⟨m', List.mem_cons_of_mem m hm', i', List.mem_cons_of_mem i hi', he⟩

/-- With equally long inputs the triple names are the derived names. -/
theorem buildTriples_map_name {mds : List Metadata} {imgs : List BioImage}
    (h : mds.length = imgs.length) :
    (buildTriples mds imgs).map (fun t => t.1) = mds.map derivedName := by
  induction mds generalizing imgs with
  | nil => rw [buildTriples.eq_def]; rfl
  | cons m ms ih =>
    cases imgs with
    | nil => exact absurd h (by simp)
    | cons i is =>
      rw [buildTriples]
      simp only [List.map_cons]
      rw [ih (by simpa using h)]

/-- A passed physical-size check means every image parses to the common
value. -/
theorem checkPhysicalSizes_ok {p0 : ℚ} {l : List BioImage}
    (h : checkPhysicalSizes p0 l = .ok ()) :
    ∀ img ∈ l, imgPhysicalSize img = .ok p0 := by
  induction l with
  | nil => intro img hi; exact absurd hi (List.not_mem_nil img)
  | cons i rest ih =>
    rw [checkPhysicalSizes] at h
    cases hp : imgPhysicalSize i with
    | error e => rw [hp] at h; exact absurd h (by simp)
    | ok p =>
      rw [hp] at h
      dsimp only at h
      by_cases he : p = p0
      · rw [if_pos he] at h
        intro img hi
        rcases List.mem_cons.mp hi with h1 | h2
        · subst h1; rw [hp, he]
        · exact ih h img h2
      · rw [if_neg he] at h
        exact absurd h (by simp)

/-- A successful subset step returns exactly the filter by `retainKeep`. -/
theorem subsetApply_ok {c : Option (List String)} {l f : List Triple}
    (h : subsetApply c l = .ok f) : f = l.filter (fun t => retainKeep c t) := by
  unfold subsetApply at h
  cases hc : pyTruthy c with
  | false =>
    rw [hc] at h
    simp only [Bool.false_eq_true, if_false, Except.ok.injEq] at h
    subst h
    simp [retainKeep, hc]
  | true =>
    rw [hc] at h
    simp only [if_true] at h
    by_cases he : (l.filter (fun t => (c.getD []).contains t.2.1)).isEmpty
    · rw [if_pos he] at h; exact absurd h (by simp)
    · rw [if_neg he] at h
      simp only [Except.ok.injEq] at h
      subst h
      simp [retainKeep, hc]

/-- Inversion of a successful stack stage: names the intermediate lists and
records every check that must have passed. -/
theorem macsimaStack_ok {cs nm : String} {mds : List Metadata} {imgs : List BioImage}
    {c : Option (List String)} {tr : Bool} {out : SpatialDataOut}
    (h : macsimaStack cs nm mds imgs c tr = .ok out) :
    ∃ keyed retained t0 rtl p0,
      attachKeys (buildTriples mds imgs) = .ok keyed ∧
      subsetApply c ((List.insertionSort keyPairLe keyed).map (fun p => p.2)) = .ok retained ∧
      retained = t0 :: rtl ∧
      imgPhysicalSize t0.2.2 = .ok p0 ∧
      checkPhysicalSizes p0 (retained.map (fun t => t.2.2)) = .ok () ∧
      t0.2.2.dims.order = "TCZYX" ∧
      out = { imageName := _clean_string nm
              channelLabels := retained.map (fun t => t.1)
              stackedImgs := retained.map (fun t => t.2.2)
              coordinateSystem := cs
              transform := if tr then Transform.scale [p0, p0] ["x", "y"]
                           else Transform.identity } := by
  unfold macsimaStack pySortTriples at h
  cases hk : attachKeys (buildTriples mds imgs) with
  | error e => rw [hk] at h; exact absurd h (by simp)
  | ok keyed =>
    rw [hk] at h
    dsimp only at h
    cases hs : subsetApply c ((List.insertionSort keyPairLe keyed).map (fun p => p.2)) with
    | error e => rw [hs] at h; exact absurd h (by simp)
    | ok retained =>
      rw [hs] at h
      dsimp only at h
      cases hre : retained with
      | nil => subst hre; simp at h
      | cons t0 rtl =>
        subst hre
        rw [if_neg (by simp)] at h
        dsimp only at h
        cases hp : imgPhysicalSize t0.2.2 with
        | error e => rw [hp] at h; exact absurd h (by simp)
        | ok p0 =>
          rw [hp] at h
          dsimp only at h
          cases hc : checkPhysicalSizes p0 ((t0 :: rtl).map (fun t => t.2.2)) with
          | error e => rw [hc] at h; exact absurd h (by simp)
          | ok u =>
            rw [hc] at h
            dsimp only at h
            by_cases hd : t0.2.2.dims.order = "TCZYX"
            · rw [if_pos hd] at h
              simp only [Except.ok.injEq] at h
              exact ⟨keyed, t0 :: rtl, t0, rtl, p0, rfl, hs, rfl, hp,
                (by cases u; exact hc), hd, h.symm⟩
            · rw [if_neg hd] at h
              exact absurd h (by simp)

/-- Inversion of a successful full invocation, down to the stack stage. -/
theorem macsima_ok {imgs : List BioImage} {c : Option (List String)} {tr : Bool}
    {out : SpatialDataOut} (h : macsima imgs c tr = .ok out) :
    ∃ img0 rest exp0 exps md0 mdRest cs nm,
      imgs = img0 :: rest ∧
      img0.ome_metadata.experiments = exp0 :: exps ∧
      _get_metadata img0 = .ok md0 ∧
      getAllMetadata rest = .ok mdRest ∧
      ((md0.roi = none ∧ cs = "global" ∧ nm = exp0.description) ∨
        ∃ r, md0.roi = some r
          ∧ ((md0 :: mdRest).map (fun m => m.roi)).all (fun x => decide (x = some r)) = true
          ∧ cs = "global_" ++ r ∧ nm = exp0.description ++ "_" ++ r) ∧
      macsimaStack cs nm (md0 :: mdRest) (img0 :: rest) c tr = .ok out := by
  cases imgs with
  | nil => simp [macsima] at h
  | cons img0 rest =>
    rw [macsima] at h
    cases hex : img0.ome_metadata.experiments with
    | nil => rw [hex] at h; exact absurd h (by simp)
    | cons exp0 exps =>
      rw [hex] at h
      dsimp only at h
      cases hmd : _get_metadata img0 with
      | error e => rw [hmd] at h; exact absurd h (by simp)
      | ok md0 =>
        rw [hmd] at h
        dsimp only at h
        cases hall : getAllMetadata rest with
        | error e => rw [hall] at h; exact absurd h (by simp)
        | ok mdRest =>
          rw [hall] at h
          dsimp only at h
          unfold macsimaAssemble at h
          cases hroi : md0.roi with
          | none =>
            rw [hroi] at h
            dsimp only at h
            exact ⟨img0, rest, exp0, exps, md0, mdRest, "global", exp0.description,
              rfl, hex, hmd, hall, Or.inl ⟨hroi, rfl, rfl⟩, h⟩
          | some r =>
            rw [hroi] at h
            dsimp only at h
            by_cases hall2 :
                ((md0 :: mdRest).map (fun m => m.roi)).all (fun x => decide (x = some r)) = true
            · rw [if_pos hall2] at h
              exact ⟨img0, rest, exp0, exps, md0, mdRest,
                "global_" ++ r, exp0.description ++ "_" ++ r,
                rfl, hex, hmd, hall, Or.inr ⟨r, hroi, hall2, rfl, rfl⟩, h⟩
            · rw [if_neg hall2] at h
              exact absurd h (by simp)

/-- The truthy-part filter equals mapping the `""` default and filtering
out empty strings. -/
theorem truthyParts_eq (l : List (Option String)) :
    truthyParts l = (l.map (fun p => p.getD "")).filter (fun s => !(s = "")) := by
  induction l with
  | nil => rfl
  | cons p rest ih =>
    cases p with
    | none => simpa [truthyParts, List.filterMap_cons, List.filter_cons] using ih
    | some s =>
      by_cases hs : s = "" <;>
        simp [truthyParts, List.filterMap_cons, List.filter_cons, hs,
          ih, truthyParts] at ih ⊢ <;> exact ih

/-- The derived name computed by the code equals the five-part join of the
amended claim. -/
theorem derivedName_eq_spec (m : Metadata) : derivedName m = specDerivedName m := by
  unfold derivedName specDerivedName
  rw [truthyParts_eq]
  rcases m with ⟨cy, st, ch, ro, re⟩
  rfl

/-- Two successive filters commute. -/
theorem filter_swap {α : Type} (p q : α → Bool) (l : List α) :
    (l.filter q).filter p = (l.filter p).filter q := by
  rw [List.filter_filter, List.filter_filter]
  exact List.filter_congr (fun x _ => Bool.and_comm (p x) (q x))

/-- Stability through the decoration: filtering the sorted, undecorated
list by one exact key value gives the same list as filtering the input. -/
theorem sorted_filter_key_eq {l : List Triple} {keyed : List Keyed}
    (hk : attachKeys l = .ok keyed) (k : Nat) :
    ((List.insertionSort keyPairLe keyed).map (fun p => p.2)).filter
        (fun t => decide (leadingNat t.1 = some k))
      = l.filter (fun t => decide (leadingNat t.1 = some k)) := by
  have hkeysS : ∀ q ∈ List.insertionSort keyPairLe keyed, leadingNat q.2.1 = some q.1 :=
    fun q hq => attachKeys_mem_key hk q ((List.mem_insertionSort keyPairLe).mp hq)
  have hkeysK : ∀ q ∈ keyed, leadingNat q.2.1 = some q.1 := attachKeys_mem_key hk
  have h1 : List.filter
        ((fun t : Triple => decide (leadingNat t.1 = some k)) ∘ (fun p : Keyed => p.2))
        (List.insertionSort keyPairLe keyed)
      = List.filter (fun q : Keyed => decide (q.1 = k)) (List.insertionSort keyPairLe keyed) :=
    List.filter_congr (fun q hq => by
      simp only [Function.comp_apply, hkeysS q hq, Option.some.injEq])
  have h2 : List.filter
        ((fun t : Triple => decide (leadingNat t.1 = some k)) ∘ (fun p : Keyed => p.2)) keyed
      = List.filter (fun q : Keyed => decide (q.1 = k)) keyed :=
    List.filter_congr (fun q hq => by
      simp only [Function.comp_apply, hkeysK q hq, Option.some.injEq])
  conv_rhs => rw [← attachKeys_ok_map hk]
  rw [List.filter_map, List.filter_map, h1, h2, insertionSort_filter_key]

/-- A single retained image with a wrong dimension order makes the stack
stage fail with the dims assert. -/
theorem macsimaStack_single_dims {cs nm : String} {md : Metadata} {img : BioImage}
    {k : Nat} {p : ℚ} {c : Option (List String)} {tr : Bool}
    (hkey : leadingNat (derivedName md) = some k)
    (hc : pyTruthy c = false)
    (hp : imgPhysicalSize img = .ok p)
    (hdims : ¬ (img.dims.order = "TCZYX")) :
    macsimaStack cs nm [md] [img] c tr = .error .dimsOrderMismatch := by
  unfold macsimaStack pySortTriples
  have hbt : buildTriples [md] [img] = [(derivedName md, md.channel, img)] := rfl
  rw [hbt]
  rw [attachKeys]
  rw [hkey]
  dsimp only [attachKeys]
  rw [subsetApply]
  rw [hc]
  dsimp only [List.insertionSort, List.orderedInsert, List.map, Bool.false_eq_true, if_false]
  rw [if_neg (by simp)]
  dsimp only
  rw [hp]
  dsimp only [List.map]
  rw [checkPhysicalSizes]
  rw [hp]
  dsimp only
  rw [if_pos rfl]
  dsimp only [checkPhysicalSizes]
  rw [if_neg hdims]
  simp

/-! ## Claim theorems -/

/-- C1 counterexample: for the image `imgC1` (cycle 1, scan type S, channel
DAPI, ROI id 2, reagent R) the code's derived name — and the output channel
label — is "1_S_DAPI_2_R", which contains the ROI id part, whereas the
underscore-join of only the non-empty parts among cycle, scan type, channel
name and reagent name is "1_S_DAPI_R".  The ROI id does contribute a part,
so the claim as stated is false. -/
theorem c1_counterexample :
    _get_metadata imgC1 = .ok ⟨"1", some "S", "DAPI", some "2", some "R"⟩
    ∧ (macsima [imgC1] none false).toOption.map (fun o => o.channelLabels)
        = some ["1_S_DAPI_2_R"]
    ∧ claimDerivedNameNoRoi ⟨"1", some "S", "DAPI", some "2", some "R"⟩ = "1_S_DAPI_R"
    ∧ ¬ ("1_S_DAPI_2_R" = "1_S_DAPI_R") :=
  ⟨by decide, by decide, by decide, by decide⟩

/-- C1 (amended): every output channel label is the underscore-join of the
non-empty parts among cycle, scan type, channel name, ROI id and reagent
name — in that fixed order — of the metadata extracted from one of the
input images. -/
theorem c1_theorem {imgs : List BioImage} {c : Option (List String)} {tr : Bool}
    {out : SpatialDataOut} (h : macsima imgs c tr = .ok out) :
    ∀ label ∈ out.channelLabels,
      ∃ img ∈ imgs, ∃ m, _get_metadata img = .ok m ∧ label = specDerivedName m := by
  rcases macsima_ok h with
    ⟨img0, rest, exp0, exps, md0, mdRest, cs, nm, h0, hex, hmd, hall, _, hstack⟩
  rcases macsimaStack_ok hstack with
    ⟨keyed, retained, t0, rtl, p0, hk, hs, hre, hp, hchk, hd, hout⟩
  subst hout
  intro label hlabel
  dsimp only at hlabel
  rcases List.mem_map.mp hlabel with ⟨t, ht, hteq⟩
  rw [subsetApply_ok hs] at ht
  have ht2 : t ∈ (List.insertionSort keyPairLe keyed).map (fun p => p.2) :=
    (List.mem_filter.mp ht).1
  rcases List.mem_map.mp ht2 with ⟨p, hpmem, hpeq⟩
  have hpk : p ∈ keyed := (List.mem_insertionSort keyPairLe).mp hpmem
  have ht3 : t ∈ buildTriples (md0 :: mdRest) (img0 :: rest) := by
    rw [← attachKeys_ok_map hk]
    exact hpeq ▸ List.mem_map_of_mem (fun p => p.2) hpk
  rcases buildTriples_mem t ht3 with ⟨m, hm, i, hi, hteq2⟩
  have hlab : label = specDerivedName m := by
    rw [← hteq, hteq2, ← derivedName_eq_spec]
  rcases List.mem_cons.mp hm with h1 | h2
  · exact ⟨img0, by rw [h0]; exact List.mem_cons_self img0 rest, m,
      by rw [h1]; exact hmd, hlab⟩
  · rcases getAllMetadata_mem hall m h2 with ⟨img', hi', hg⟩
    exact ⟨img', by rw [h0]; exact List.mem_cons_of_mem img0 hi', m, hg, hlab⟩

/-- C1 witness: the amended theorem applied to the one-image invocation
`[imgC1]` and its (computed) output label. -/
theorem c1_witness :
    ∃ img ∈ [imgC1], ∃ m, _get_metadata img = .ok m
      ∧ "1_S_DAPI_2_R" = specDerivedName m :=
  @c1_theorem [imgC1] none false ((macsima [imgC1] none false).toOption.getD defaultOut)
    (by rfl) "1_S_DAPI_2_R" (by decide)

/-- C2 counterexample: `imgC2a` has no ROI id and `imgC2b` has ROI id "2";
the two images resolve to different ROI ids and one is present, yet the
call succeeds (with the bare "global" coordinate system) because the check
is only performed when the FIRST image's ROI id is present. -/
theorem c2_counterexample :
    _get_metadata imgC2a = .ok ⟨"1", none, "DAPI", none, none⟩
    ∧ _get_metadata imgC2b = .ok ⟨"2", none, "CD3", some "2", none⟩
    ∧ (macsima [imgC2a, imgC2b] none false).toOption.map (fun o => o.coordinateSystem)
        = some "global" :=
  ⟨by decide, by decide, by decide⟩

/-- C2 (amended): the ROI consistency check is keyed on the first image:
when the first image's extracted ROI id is present, any image whose ROI id
differs makes the whole call fail with the ROI-mismatch assert; when the
first image's ROI id is absent no ROI check is performed at all. -/
theorem c2_theorem {imgs : List BioImage} {img0 : BioImage} {rest : List BioImage}
    {exp0 : Experiment} {exps : List Experiment} {md0 : Metadata}
    {mdRest : List Metadata} {r : String}
    (h0 : imgs = img0 :: rest)
    (hex : img0.ome_metadata.experiments = exp0 :: exps)
    (hmd : _get_metadata img0 = .ok md0)
    (hall : getAllMetadata rest = .ok mdRest)
    (hroi : md0.roi = some r)
    (hbad : ∃ m ∈ md0 :: mdRest, ¬ (m.roi = some r)) :
    ∀ c tr, macsima imgs c tr = .error .roiMismatch := by
  intro c tr
  subst h0
  rw [macsima, hex]
  dsimp only
  rw [hmd]
  dsimp only
  rw [hall]
  dsimp only
  unfold macsimaAssemble
  rw [hroi]
  dsimp only
  rw [if_neg]
  intro hcontra
  rcases hbad with ⟨m, hm, hne⟩
  rw [List.all_eq_true] at hcontra
  have := hcontra (m.roi) (List.mem_map_of_mem (fun m => m.roi) hm)
  simp only [decide_eq_true_eq] at this
  exact hne this

/-- C2 witness: two images with ROI ids "1" and "2" fail with the ROI
assert. -/
theorem c2_witness : macsima [imgC2c, imgC2d] none false = .error .roiMismatch :=
  @c2_theorem [imgC2c, imgC2d] imgC2c [imgC2d] ⟨"MACSima experiment"⟩ []
    ⟨"1", none, "DAPI", some "1", none⟩ [⟨"2", none, "CD3", some "2", none⟩] "1"
    rfl rfl (by decide) (by decide) rfl
    ⟨⟨"2", none, "CD3", some "2", none⟩, by decide, by decide⟩ none false

/-- C3: an allow-list that retains no channel makes the call fail, but with
the tuple-unpacking ValueError of line 83 (`zip(*[])` on the empty filtered
list), not with the dedicated "empty after subsetting" ValueError of
line 89, which is unreachable on this path. -/
theorem c3_theorem :
    macsima [imgC3] (some ["CD3"]) false = .error .unpackEmpty
    ∧ ¬ (macsima [imgC3] (some ["CD3"]) false = .error .emptyChannelSubset) :=
  ⟨by decide, by decide⟩

/-- C5: physical-size normalization returns magnitude/1000 for nanometers
and the magnitude unchanged for micrometers (on isotropic input), fails
with the unrecognized-unit error for any other unit, and fails with one of
the two unsupported-geometry errors whenever the units or the magnitudes of
x and y differ; 500 nanometers normalize to 0.5 and 1000 nanometers equal
1 micrometer after normalization. -/
theorem c5_theorem :
    (∀ mag : ℚ, _parse_physical_size ⟨mag, mag, .nanometer, .nanometer⟩ = .ok (mag / 1000))
    ∧ (∀ mag : ℚ, _parse_physical_size ⟨mag, mag, .micrometer, .micrometer⟩ = .ok mag)
    ∧ (∀ (mag : ℚ) (u : UnitsLength), ¬ (u = .nanometer) → ¬ (u = .micrometer) →
        _parse_physical_size ⟨mag, mag, u, u⟩ = .error .unitNotRecognized)
    ∧ (∀ px : Pixels,
        (¬ (px.physical_size_x_unit = px.physical_size_y_unit) ∨
         ¬ (px.physical_size_x = px.physical_size_y)) →
        _parse_physical_size px = .error .unitsXYDiffer ∨
        _parse_physical_size px = .error .sizesXYDiffer)
    ∧ _parse_physical_size ⟨500, 500, .nanometer, .nanometer⟩ = .ok (1 / 2)
    ∧ _parse_physical_size ⟨1000, 1000, .nanometer, .nanometer⟩
        = _parse_physical_size ⟨1, 1, .micrometer, .micrometer⟩ := by
  refine ⟨?_, ?_, ?_, ?_, ?_, ?_⟩
  · intro mag
    simp [_parse_physical_size]
  · intro mag
    simp [_parse_physical_size]
  · intro mag u h1 h2
    simp [_parse_physical_size, h1, h2]
  · intro px hne
    by_cases hu : px.physical_size_x_unit = px.physical_size_y_unit
    · right
      rcases hne with h | h
      · exact absurd hu h
      · simp [_parse_physical_size, hu, h]
    · left
      simp [_parse_physical_size, hu]
  · norm_num [_parse_physical_size]
  · norm_num [_parse_physical_size]
    rw [if_neg (by decide)]

/-- C5 witness: the theorem applied at concrete pixel descriptors. -/
theorem c5_witness :
    _parse_physical_size ⟨500, 500, .nanometer, .nanometer⟩ = .ok (500 / 1000)
    ∧ _parse_physical_size ⟨2, 2, .micrometer, .micrometer⟩ = .ok 2
    ∧ _parse_physical_size ⟨2, 2, .other "millimeter", .other "millimeter"⟩
        = .error .unitNotRecognized
    ∧ (_parse_physical_size ⟨500, 600, .micrometer, .micrometer⟩ = .error .unitsXYDiffer ∨
       _parse_physical_size ⟨500, 600, .micrometer, .micrometer⟩ = .error .sizesXYDiffer) :=
  ⟨c5_theorem.1 500, c5_theorem.2.1 2,
   c5_theorem.2.2.1 2 (.other "millimeter") (by decide) (by decide),
   c5_theorem.2.2.2.1 ⟨500, 600, .micrometer, .micrometer⟩ (Or.inr (by norm_num))⟩

/-- C8: channel-name extraction succeeds exactly when the channel-names
attribute is present with one single non-empty entry; a missing attribute
is the attribute-not-found error, a present single empty entry is the
value-not-specified error, and more than one entry is the ambiguous-channel
assert. -/
theorem c8_theorem (img : BioImage) :
    ((∃ ch, _get_channel_name img = .ok ch) ↔
      (∃ ch, img.channel_names = some [ch] ∧ ¬ (ch = "")))
    ∧ (img.channel_names = none →
        _get_channel_name img = .error .channelAttrNotFound)
    ∧ (img.channel_names = some [""] →
        _get_channel_name img = .error .channelNotSpecified)
    ∧ (∀ l, img.channel_names = some l → 1 < l.length →
        _get_channel_name img = .error .ambiguousChannel) := by
  refine ⟨⟨?_, ?_⟩, ?_, ?_, ?_⟩
  · rintro ⟨ch, hch⟩
    unfold _get_channel_name at hch
    cases hcn : img.channel_names with
    | none => rw [hcn] at hch; exact absurd hch (by simp)
    | some l =>
      rw [hcn] at hch
      match l with
      | [] => exact absurd hch (by simp)
      | [c0] =>
        dsimp only at hch
        by_cases h0 : c0 = ""
        · rw [if_pos h0] at hch; exact absurd hch (by simp)
        · rw [if_neg h0] at hch
          simp only [Except.ok.injEq] at hch
          exact ⟨c0, rfl, h0⟩
      | c0 :: c1 :: cr => exact absurd hch (by simp)
  · rintro ⟨ch, hcn, hne⟩
    refine ⟨ch, ?_⟩
    unfold _get_channel_name
    rw [hcn]
    dsimp only
    rw [if_neg hne]
  · intro hcn
    unfold _get_channel_name
    rw [hcn]
  · intro hcn
    unfold _get_channel_name
    rw [hcn]
    rfl
  · intro l hl hlen
    unfold _get_channel_name
    rw [hl]
    cases l with
    | nil => exact absurd hlen (by simp)
    | cons c0 ltail =>
      cases ltail with
      | nil => exact absurd hlen (by simp)
      | cons c1 cr => rfl

/-- C8 witness: the theorem applied at the four channel-name attribute
shapes. -/
theorem c8_witness :
    _get_channel_name (imgC8 none) = .error .channelAttrNotFound
    ∧ _get_channel_name (imgC8 (some [""])) = .error .channelNotSpecified
    ∧ _get_channel_name (imgC8 (some ["a", "b"])) = .error .ambiguousChannel
    ∧ (∃ ch, _get_channel_name (imgC8 (some ["DAPI"])) = .ok ch) :=
  ⟨(c8_theorem (imgC8 none)).2.1 (by decide),
   (c8_theorem (imgC8 (some [""]))).2.2.1 (by decide),
   (c8_theorem (imgC8 (some ["a", "b"]))).2.2.2 ["a", "b"] (by decide) (by decide),
   (c8_theorem (imgC8 (some ["DAPI"]))).1.mpr ⟨"DAPI", by decide, by decide⟩⟩

/-- C4: every successful invocation's channel labels are ordered ascending
by the integer value of their leading digit runs, and an invocation whose
(consistent-ROI) metadata yields a derived name with no leading digit fails
with the sort-key AttributeError. -/
theorem c4_theorem :
    (∀ (imgs : List BioImage) (c : Option (List String)) (tr : Bool)
        (out : SpatialDataOut), macsima imgs c tr = .ok out →
      out.channelLabels.Pairwise labelKeyLe)
    ∧ (∀ (img0 : BioImage) (rest : List BioImage) (exp0 : Experiment)
        (exps : List Experiment) (md0 : Metadata) (mdRest : List Metadata)
        (c : Option (List String)) (tr : Bool),
        img0.ome_metadata.experiments = exp0 :: exps →
        _get_metadata img0 = .ok md0 →
        getAllMetadata rest = .ok mdRest →
        (∀ r, md0.roi = some r →
          ((md0 :: mdRest).map (fun m => m.roi)).all (fun x => decide (x = some r)) = true) →
        (∃ m ∈ md0 :: mdRest, leadingNat (derivedName m) = none) →
        macsima (img0 :: rest) c tr = .error .sortKeyNoMatch) := by
  constructor
  · intro imgs c tr out h
    rcases macsima_ok h with
      ⟨img0, rest, exp0, exps, md0, mdRest, cs, nm, h0, hex, hmd, hall, _, hstack⟩
    rcases macsimaStack_ok hstack with
      ⟨keyed, retained, t0, rtl, p0, hk, hs, hre, hp, hchk, hd, hout⟩
    subst hout
    dsimp only
    rw [subsetApply_ok hs]
    have hsorted : List.Pairwise keyPairLe (List.insertionSort keyPairLe keyed) :=
      List.sorted_insertionSort keyPairLe keyed
    have hkeys : ∀ q ∈ List.insertionSort keyPairLe keyed, leadingNat q.2.1 = some q.1 :=
      fun q hq => attachKeys_mem_key hk q ((List.mem_insertionSort keyPairLe).mp hq)
    have h2 : List.Pairwise (fun a b : Keyed => labelKeyLe a.2.1 b.2.1)
        (List.insertionSort keyPairLe keyed) :=
      hsorted.imp_of_mem (fun ha hb hr => ⟨_, _, hkeys _ ha, hkeys _ hb, hr⟩)
    have h3 : List.Pairwise (fun a b : Triple => labelKeyLe a.1 b.1)
        ((List.insertionSort keyPairLe keyed).map (fun p => p.2)) :=
      List.pairwise_map.mpr h2
    exact List.pairwise_map.mpr (h3.filter (fun t => retainKeep c t))
  · intro img0 rest exp0 exps md0 mdRest c tr hex hmd hall hroiOK hbad
    have hlen : (md0 :: mdRest).length = (img0 :: rest).length := by
      simp [getAllMetadata_length hall]
    have hbadT : ∃ t ∈ buildTriples (md0 :: mdRest) (img0 :: rest),
        leadingNat t.1 = none := by
      rcases hbad with ⟨m, hm, hnone⟩
      have hmm : derivedName m
          ∈ (buildTriples (md0 :: mdRest) (img0 :: rest)).map (fun t => t.1) := by
        rw [buildTriples_map_name hlen]
        exact List.mem_map_of_mem derivedName hm
      rcases List.mem_map.mp hmm with ⟨t, ht, hteq⟩
      exact ⟨t, ht, by rw [hteq]; exact hnone⟩
    have hstackErr : ∀ cs nm, macsimaStack cs nm (md0 :: mdRest) (img0 :: rest) c tr
        = .error .sortKeyNoMatch := by
      intro cs nm
      unfold macsimaStack pySortTriples
      rw [attachKeys_error_of_none hbadT]
    rw [macsima, hex]
    dsimp only
    rw [hmd]
    dsimp only
    rw [hall]
    dsimp only
    unfold macsimaAssemble
    cases hroi : md0.roi with
    | none => dsimp only; exact hstackErr _ _
    | some r =>
      dsimp only
      rw [if_pos (hroiOK r hroi)]
      exact hstackErr _ _

/-- C4 witness: cycles [3,1,2] come out as 1,2,3, the sortedness theorem
applies to the computed output, and a cycle annotation without digits is
fatal. -/
theorem c4_witness :
    List.Pairwise labelKeyLe
      ((macsima [imgC4a, imgC4b, imgC4c] none false).toOption.getD defaultOut).channelLabels
    ∧ (macsima [imgC4a, imgC4b, imgC4c] none false).toOption.map (fun o => o.channelLabels)
        = some ["1_CD4", "2_CD8", "3_CD3"]
    ∧ macsima [imgC4bad] none false = .error .sortKeyNoMatch :=
  ⟨c4_theorem.1 [imgC4a, imgC4b, imgC4c] none false
      ((macsima [imgC4a, imgC4b, imgC4c] none false).toOption.getD defaultOut) (by rfl),
   by decide,
   c4_theorem.2 imgC4bad [] ⟨"MACSima experiment"⟩ [] ⟨"X", none, "DAPI", none, none⟩ []
     none false rfl (by decide) rfl (fun r hr => Option.noConfusion hr)
     ⟨⟨"X", none, "DAPI", none, none⟩, by decide, by decide⟩⟩

/-- C6 counterexample: `imgC6a` (1 micrometer) and `imgC6b` (2 micrometers)
have different normalized pixel sizes, yet the invocation whose channel
allow-list drops `imgC6b` succeeds: the sizes of images excluded by the
subset are never compared, so a mismatch between two images of the
invocation is not always fatal. -/
theorem c6_counterexample :
    imgPhysicalSize imgC6a = .ok 1
    ∧ imgPhysicalSize imgC6b = .ok 2
    ∧ ¬ ((1 : ℚ) = 2)
    ∧ (macsima [imgC6a, imgC6b] (some ["DAPI"]) false).toOption.map
        (fun o => o.stackedImgs) = some [imgC6a] :=
  ⟨by decide, by decide, by decide, by decide⟩

/-- C6 (amended): the normalized physical pixel size is compared for exact
equality across the images retained after channel filtering: on success
every pair of stacked images parses to the same size (so a mismatch among
retained images is fatal); images excluded by the subset are not
checked. -/
theorem c6_theorem {imgs : List BioImage} {c : Option (List String)} {tr : Bool}
    {out : SpatialDataOut} (h : macsima imgs c tr = .ok out) :
    ∀ i1 ∈ out.stackedImgs, ∀ i2 ∈ out.stackedImgs,
      imgPhysicalSize i1 = imgPhysicalSize i2 := by
  rcases macsima_ok h with
    ⟨img0, rest, exp0, exps, md0, mdRest, cs, nm, h0, hex, hmd, hall, _, hstack⟩
  rcases macsimaStack_ok hstack with
    ⟨keyed, retained, t0, rtl, p0, hk, hs, hre, hp, hchk, hd, hout⟩
  subst hout
  intro i1 h1 i2 h2
  dsimp only at h1 h2
  rw [checkPhysicalSizes_ok hchk i1 h1, checkPhysicalSizes_ok hchk i2 h2]

/-- C6 witness: the theorem applied to a two-image same-size run. -/
theorem c6_witness : imgPhysicalSize imgC6c = imgPhysicalSize imgC6d :=
  @c6_theorem [imgC6c, imgC6d] none false
    ((macsima [imgC6c, imgC6d] none false).toOption.getD defaultOut)
    (by rfl) imgC6c (by decide) imgC6d (by decide)

/-- C7 counterexample: the second image's dimension order is XYZCT, not
TCZYX, yet the invocation succeeds and stacks it: only the first image's
order is validated, so the claimed per-image validation does not hold. -/
theorem c7_counterexample :
    imgC7b.dims.order = "XYZCT"
    ∧ ¬ (imgC7b.dims.order = "TCZYX")
    ∧ (macsima [imgC7a, imgC7b] none false).toOption.map
        (fun o => o.stackedImgs) = some [imgC7a, imgC7b] :=
  ⟨by decide, by decide, by decide⟩

/-- C7 (amended): only the first retained image's dimension order is
validated to be TCZYX: on success the first stacked image has that order,
and a single-image invocation reaching the check with any other order
fails with the dims assert; later images are not checked. -/
theorem c7_theorem :
    (∀ (imgs : List BioImage) (c : Option (List String)) (tr : Bool)
        (out : SpatialDataOut), macsima imgs c tr = .ok out →
      ∀ i0 ∈ out.stackedImgs.head?, i0.dims.order = "TCZYX")
    ∧ (∀ (img : BioImage) (exp0 : Experiment) (exps : List Experiment)
        (md : Metadata) (k : Nat) (p : ℚ) (c : Option (List String)) (tr : Bool),
        img.ome_metadata.experiments = exp0 :: exps →
        _get_metadata img = .ok md →
        leadingNat (derivedName md) = some k →
        pyTruthy c = false →
        imgPhysicalSize img = .ok p →
        ¬ (img.dims.order = "TCZYX") →
        macsima [img] c tr = .error .dimsOrderMismatch) := by
  constructor
  · intro imgs c tr out h
    rcases macsima_ok h with
      ⟨img0, rest, exp0, exps, md0, mdRest, cs, nm, h0, hex, hmd, hall, _, hstack⟩
    rcases macsimaStack_ok hstack with
      ⟨keyed, retained, t0, rtl, p0, hk, hs, hre, hp, hchk, hd, hout⟩
    subst hout
    subst hre
    intro i0 hi0
    simp only [List.map_cons, List.head?_cons, Option.mem_def, Option.some.injEq] at hi0
    exact hi0 ▸ hd
  · intro img exp0 exps md k p c tr hex hmd hkey hc hp hdims
    rw [macsima, hex]
    dsimp only
    rw [hmd]
    dsimp only
    rw [show getAllMetadata [] = .ok [] from rfl]
    dsimp only
    unfold macsimaAssemble
    cases hroi : md.roi with
    | none => dsimp only; exact macsimaStack_single_dims hkey hc hp hdims
    | some r =>
      dsimp only
      rw [if_pos (by simp [hroi])]
      exact macsimaStack_single_dims hkey hc hp hdims

/-- C7 witness: the theorem's two parts applied to concrete runs. -/
theorem c7_witness :
    imgC7a.dims.order = "TCZYX"
    ∧ macsima [imgC7c] none false = .error .dimsOrderMismatch :=
  ⟨c7_theorem.1 [imgC7a] none false
      ((macsima [imgC7a] none false).toOption.getD defaultOut) (by rfl)
      imgC7a (by decide),
   c7_theorem.2 imgC7c ⟨"MACSima experiment"⟩ [] ⟨"1", none, "DAPI", none, none⟩
      1 1 none false rfl (by decide) (by decide) rfl (by decide) (by decide)⟩

/-- C9: the output image name is the first image's experiment description,
underscore-suffixed with the ROI id when the first image carries one,
sanitized once at the end by mapping every character outside [A-Za-z0-9_]
to an underscore one-for-one (length is preserved; the spec's example
evaluates as claimed); the coordinate-system name and the channel labels
are left unsanitized, as the concrete run with a parenthesised ROI id
shows. -/
theorem c9_theorem :
    (∀ (imgs : List BioImage) (c : Option (List String)) (tr : Bool)
        (out : SpatialDataOut) (img0 : BioImage) (rest : List BioImage)
        (exp0 : Experiment) (exps : List Experiment) (md0 : Metadata),
      imgs = img0 :: rest →
      img0.ome_metadata.experiments = exp0 :: exps →
      _get_metadata img0 = .ok md0 →
      macsima imgs c tr = .ok out →
      out.imageName = _clean_string
          (match md0.roi with
            | some r => exp0.description ++ "_" ++ r
            | none => exp0.description)
        ∧ out.coordinateSystem =
          (match md0.roi with
            | some r => "global_" ++ r
            | none => "global"))
    ∧ _clean_string "Exp #1 (ROI-2)" = "Exp__1__ROI_2_"
    ∧ (∀ s, (_clean_string s).length = s.length)
    ∧ (macsima [imgC9] none false).toOption.map
        (fun o => (o.imageName, o.channelLabels, o.coordinateSystem))
        = some ("MACSima_experiment_ROI_2_", ["1_DAPI_ROI(2)"], "global_ROI(2)") := by
  refine ⟨?_, by decide, ?_, by decide⟩
  · intro imgs c tr out img0 rest exp0 exps md0 h0 hex hmd h
    subst h0
    rcases macsima_ok h with
      ⟨img0', rest', exp0', exps', md0', mdRest', cs, nm, h0', hex', hmd', hall', hcs, hstack⟩
    injection h0' with hA hB
    subst hA
    subst hB
    rw [hex] at hex'
    injection hex' with hC hD
    subst hC
    rw [hmd] at hmd'
    simp only [Except.ok.injEq] at hmd'
    subst hmd'
    rcases macsimaStack_ok hstack with
      ⟨keyed, retained, t0, rtl, p0, hk, hs, hre, hp, hchk, hd, hout⟩
    subst hout
    rcases hcs with ⟨hnone, hcseq, hnmeq⟩ | ⟨r, hsome, hallr, hcseq, hnmeq⟩
    · subst hcseq
      subst hnmeq
      rw [hnone]
      exact ⟨rfl, rfl⟩
    · subst hcseq
      subst hnmeq
      rw [hsome]
      exact ⟨rfl, rfl⟩
  · intro s
    simp only [_clean_string, String.length_mk, List.length_map]
    rfl

/-- C9 witness: the naming part of the theorem applied to the `imgC9`
run. -/
theorem c9_witness :
    ((macsima [imgC9] none false).toOption.getD defaultOut).imageName
        = _clean_string ("MACSima experiment" ++ "_" ++ "ROI(2)")
    ∧ ((macsima [imgC9] none false).toOption.getD defaultOut).coordinateSystem
        = "global_" ++ "ROI(2)" :=
  c9_theorem.1 [imgC9] none false
    ((macsima [imgC9] none false).toOption.getD defaultOut)
    imgC9 [] ⟨"MACSima experiment"⟩ [] ⟨"1", none, "DAPI", some "ROI(2)", none⟩
    rfl rfl (by decide) (by rfl)

/-- C10: the cycle sort is stable: for every leading-key value k, the
(label, image) pairs on the output channel axis whose label has key k are
exactly the retained input triples with key k, in input order — equal-key
images are never reordered. -/
theorem c10_theorem {imgs : List BioImage} {c : Option (List String)} {tr : Bool}
    {out : SpatialDataOut} {img0 : BioImage} {rest : List BioImage}
    {exp0 : Experiment} {exps : List Experiment} {md0 : Metadata} {mdRest : List Metadata}
    (h0 : imgs = img0 :: rest)
    (hex : img0.ome_metadata.experiments = exp0 :: exps)
    (hmd : _get_metadata img0 = .ok md0)
    (hall : getAllMetadata rest = .ok mdRest)
    (h : macsima imgs c tr = .ok out) :
    ∀ k : Nat,
      (out.channelLabels.zip out.stackedImgs).filter
          (fun q => decide (leadingNat q.1 = some k))
        = (((buildTriples (md0 :: mdRest) imgs).filter (fun t => retainKeep c t)).filter
            (fun t => decide (leadingNat t.1 = some k))).map (fun t => (t.1, t.2.2)) := by
  subst h0
  rcases macsima_ok h with
    ⟨img0', rest', exp0', exps', md0', mdRest', cs, nm, h0', hex', hmd', hall', hcs, hstack⟩
  injection h0' with hA hB
  subst hA
  subst hB
  rw [hmd] at hmd'
  simp only [Except.ok.injEq] at hmd'
  subst hmd'
  rw [hall] at hall'
  simp only [Except.ok.injEq] at hall'
  subst hall'
  rcases macsimaStack_ok hstack with
    ⟨keyed, retained, t0, rtl, p0, hk, hs, hre, hp, hchk, hd, hout⟩
  subst hout
  intro k
  dsimp only
  rw [subsetApply_ok hs]
  rw [List.zip_map']
  rw [List.filter_map]
  have hcomp : ((fun q : String × BioImage => decide (leadingNat q.1 = some k)) ∘
        (fun t : Triple => (t.1, t.2.2)))
      = (fun t : Triple => decide (leadingNat t.1 = some k)) := rfl
  rw [hcomp]
  rw [filter_swap (fun t => decide (leadingNat t.1 = some k)) (fun t => retainKeep c t)]
  rw [sorted_filter_key_eq hk k]
  rw [← filter_swap (fun t => decide (leadingNat t.1 = some k)) (fun t => retainKeep c t)]

/-- C10 witness: the stability equation for key 1 on a run with two images
sharing cycle 1 (DAPI before CD3 in the input) and one with cycle 2. -/
theorem c10_witness :
    ((((macsima [imgC10a, imgC10b, imgC10c] none false).toOption.getD
          defaultOut).channelLabels.zip
        (((macsima [imgC10a, imgC10b, imgC10c] none false).toOption.getD
          defaultOut)).stackedImgs).filter
          (fun q => decide (leadingNat q.1 = some 1)))
      = (((buildTriples
            [⟨"1", none, "DAPI", none, none⟩, ⟨"1", none, "CD3", none, none⟩,
              ⟨"2", none, "CD8", none, none⟩]
            [imgC10a, imgC10b, imgC10c]).filter (fun t => retainKeep none t)).filter
          (fun t => decide (leadingNat t.1 = some 1))).map (fun t => (t.1, t.2.2)) :=
  @c10_theorem [imgC10a, imgC10b, imgC10c] none false
    ((macsima [imgC10a, imgC10b, imgC10c] none false).toOption.getD defaultOut)
    imgC10a [imgC10b, imgC10c] ⟨"MACSima experiment"⟩ []
    ⟨"1", none, "DAPI", none, none⟩
    [⟨"1", none, "CD3", none, none⟩, ⟨"2", none, "CD8", none, none⟩]
    rfl rfl (by decide) (by decide) (by rfl) 1

end Macsima
